import Mathlib

/-!
Verification of the acme-dns client library (src/acme-dns-client).

The library wraps three HTTP calls (register, update, health) of the
acme-dns API plus credential loading from environment variables.  The
external collaborators (URL parsing and joining, the HTTP transport, the
textual JSON parser, the process environment) are modelled as explicit
inputs to the embedded operations; everything the repository itself does
(request shaping, status-code-to-error mapping, serde field semantics of
the Credentials struct, environment-variable sequencing) is translated
directly from src/acme-dns-client/src/lib.rs and src/acme-dns-client/src/error.rs.
-/

namespace AcmeDns

/-- Model of url::ParseError (external crate): an opaque diagnostic. -/
structure UrlParseError where
  msg : String
deriving DecidableEq

/-- Model of a parsed url::Url value: the absolute URL text it denotes. -/
structure Url where
  repr : String
deriving DecidableEq

/-- Model of reqwest::Error (transport failure, builder failure, or a
body-read failure): an opaque diagnostic. -/
structure HttpErr where
  msg : String
deriving DecidableEq

/-- JSON values, used to model serde serialization output and the shape
checking that serde_json performs when deserializing Credentials. -/
inductive Json where
  | null : Json
  | bool : Bool → Json
  | num : Int → Json
  | str : String → Json
  | arr : List Json → Json
  | obj : List (String × Json) → Json

/-- Error enum from src/acme-dns-client/src/error.rs: Url, Http, Json,
UnexpectedStatus with status and body, MissingEnv with the variable name. -/
inductive Error where
  | url : UrlParseError → Error
  | http : HttpErr → Error
  | json : String → Error
  | unexpectedStatus : Nat → String → Error
  | missingEnv : String → Error
deriving DecidableEq

/-- Credentials struct from lib.rs lines 33 to 41: four string fields and
an allowfrom list whose serde attribute gives it a default. -/
structure Credentials where
  username : String
  password : String
  subdomain : String
  fulldomain : String
  allowfrom : List String
deriving DecidableEq

/-- An HTTP request as the client assembles it: method, the joined URL,
the explicitly set headers, and the serialized JSON body when present. -/
structure HttpRequest where
  method : String
  url : Url
  headers : List (String × String)
  body : Option Json

/-- An HTTP response as the transport hands it back: the status code and
the outcome of reading the body text, which itself can fail. -/
structure Response where
  status : Nat
  textResult : Except HttpErr String

/-- The effectful collaborators of a client call: joining a path onto the
base URL (url crate), sending a request (reqwest), and parsing body text
as JSON (the textual layer of serde_json). -/
structure ClientEnv where
  join : String → Except UrlParseError Url
  send : HttpRequest → Except HttpErr Response
  parseJson : String → Option Json

/-- The process environment: a map from variable names to values. -/
def Env : Type := String → Option String

/-- The client holds the parsed base URL and the transport handle, which
carries no observable state of its own. -/
structure AcmeDnsClient where
  base_url : Url
  http : Unit

/-- Serialization of RegistrationRequest (lib.rs lines 43 to 47): the one
field allowfrom is skipped when the option is none. -/
def registrationBodyJson : Option (List String) → Json
  | none => Json.obj []
  | some xs => Json.obj [("allowfrom", Json.arr (xs.map Json.str))]

/-- The POST request register sends (lib.rs line 94): no explicit
headers, JSON body from RegistrationRequest. -/
def registerRequest (url : Url) (allow_from : Option (List String)) : HttpRequest :=
  { method := "POST", url := url, headers := [], body := some (registrationBodyJson allow_from) }

/-- Serialization of UpdateRequest (lib.rs lines 49 to 53): subdomain and
txt, in declaration order. -/
def updateBodyJson (creds : Credentials) (txt : String) : Json :=
  Json.obj [("subdomain", Json.str creds.subdomain), ("txt", Json.str txt)]

/-- The POST request update_txt sends (lib.rs lines 118 to 125): headers
X-Api-User and X-Api-Key from the credentials, JSON body from
UpdateRequest. -/
def updateRequest (url : Url) (creds : Credentials) (txt : String) : HttpRequest :=
  { method := "POST", url := url,
    headers := [("X-Api-User", creds.username), ("X-Api-Key", creds.password)],
    body := some (updateBodyJson creds txt) }

/-- The GET request health sends (lib.rs line 140): no headers, no body. -/
def healthRequest (url : Url) : HttpRequest :=
  { method := "GET", url := url, headers := [], body := none }

/-- Accumulator for serde field decoding of Credentials: each field is
none until its key has been seen. -/
structure PartialCreds where
  username : Option String
  password : Option String
  subdomain : Option String
  fulldomain : Option String
  allowfrom : Option (List String)

/-- Decoding a JSON array as Vec of String: every element must be a JSON
string. -/
def decodeStringList : List Json → Option (List String)
  | [] => some []
  | Json.str s :: rest => (decodeStringList rest).map (fun l => s :: l)
  | _ => none

/-- Serde field loop for Credentials: known keys fill their slot, a
repeated key is a duplicate-field error, a wrongly typed value is an
invalid-type error, unknown keys are ignored. -/
def decodeFields : List (String × Json) → PartialCreds → Except String PartialCreds
  | [], acc => Except.ok acc
  | (k, v) :: rest, acc =>
    if k = "username" then
      match acc.username with
      | some _ => Except.error "duplicate field username"
      | none =>
        match v with
        | Json.str s => decodeFields rest { acc with username := some s }
        | _ => Except.error "invalid type for field username"
    else if k = "password" then
      match acc.password with
      | some _ => Except.error "duplicate field password"
      | none =>
        match v with
        | Json.str s => decodeFields rest { acc with password := some s }
        | _ => Except.error "invalid type for field password"
    else if k = "subdomain" then
      match acc.subdomain with
      | some _ => Except.error "duplicate field subdomain"
      | none =>
        match v with
        | Json.str s => decodeFields rest { acc with subdomain := some s }
        | _ => Except.error "invalid type for field subdomain"
    else if k = "fulldomain" then
      match acc.fulldomain with
      | some _ => Except.error "duplicate field fulldomain"
      | none =>
        match v with
        | Json.str s => decodeFields rest { acc with fulldomain := some s }
        | _ => Except.error "invalid type for field fulldomain"
    else if k = "allowfrom" then
      match acc.allowfrom with
      | some _ => Except.error "duplicate field allowfrom"
      | none =>
        match v with
        | Json.arr xs =>
          match decodeStringList xs with
          | some l => decodeFields rest { acc with allowfrom := some l }
          | none => Except.error "invalid type for field allowfrom"
        | _ => Except.error "invalid type for field allowfrom"
    else decodeFields rest acc

/-- Deserializing Credentials from a JSON value, following the serde
derive on the struct: the value must be an object, the four string fields
are required, allowfrom defaults to the empty list when absent. -/
def credentialsOfJson : Json → Except String Credentials
  | Json.obj fields =>
    match decodeFields fields ⟨none, none, none, none, none⟩ with
    | Except.error e => Except.error e
    | Except.ok acc =>
      match acc.username with
      | none => Except.error "missing field username"
      | some username =>
        match acc.password with
        | none => Except.error "missing field password"
        | some password =>
          match acc.subdomain with
          | none => Except.error "missing field subdomain"
          | some subdomain =>
            match acc.fulldomain with
            | none => Except.error "missing field fulldomain"
            | some fulldomain =>
              Except.ok { username := username, password := password,
                          subdomain := subdomain, fulldomain := fulldomain,
                          allowfrom := acc.allowfrom.getD [] }
  | _ => Except.error "invalid type: expected struct Credentials"

/-- serde_json::from_str for Credentials: the textual parse (delegated to
the external parser) followed by the shape check. -/
def serdeFromStr (parseJson : String → Option Json) (s : String) : Except String Credentials :=
  match parseJson s with
  | none => Except.error "expected value"
  | some j => credentialsOfJson j

/-- AcmeDnsClient::new (lib.rs lines 67 to 74): parse the base URL, then
build the default transport; either step propagates its converted error. -/
def AcmeDnsClient.new (parseResult : Except UrlParseError Url)
    (buildResult : Except HttpErr Unit) : Except Error AcmeDnsClient :=
  match parseResult with
  | Except.error e => Except.error (Error.url e)
  | Except.ok base =>
    match buildResult with
    | Except.error e => Except.error (Error.http e)
    | Except.ok http => Except.ok { base_url := base, http := http }

/-- AcmeDnsClient::from_env (lib.rs lines 77 to 81): read
ACME_DNS_API_BASE, map absence to MissingEnv, then delegate to new. -/
def AcmeDnsClient.from_env (env : Env) (parse : String → Except UrlParseError Url)
    (buildResult : Except HttpErr Unit) : Except Error AcmeDnsClient :=
  match env "ACME_DNS_API_BASE" with
  | none => Except.error (Error.missingEnv "ACME_DNS_API_BASE")
  | some base => AcmeDnsClient.new (parse base) buildResult

/-- AcmeDnsClient::register (lib.rs lines 87 to 104): join the register
path, send, read the body text, then require status 201 before parsing
the body as Credentials. -/
def register (env : ClientEnv) (allow_from : Option (List String)) : Except Error Credentials :=
  match env.join "register" with
  | Except.error e => Except.error (Error.url e)
  | Except.ok url =>
    match env.send (registerRequest url allow_from) with
    | Except.error e => Except.error (Error.http e)
    | Except.ok resp =>
      match resp.textResult with
      | Except.error e => Except.error (Error.http e)
      | Except.ok text =>
        if resp.status ≠ 201 then Except.error (Error.unexpectedStatus resp.status text)
        else
          match serdeFromStr env.parseJson text with
          | Except.error e => Except.error (Error.json e)
          | Except.ok creds => Except.ok creds

/-- AcmeDnsClient::update_txt (lib.rs lines 110 to 135): join the update
path, send with the two API headers and the JSON body, read the body
text, then require status 200. -/
def update_txt (env : ClientEnv) (creds : Credentials) (txt : String) : Except Error Unit :=
  match env.join "update" with
  | Except.error e => Except.error (Error.url e)
  | Except.ok url =>
    match env.send (updateRequest url creds txt) with
    | Except.error e => Except.error (Error.http e)
    | Except.ok resp =>
      match resp.textResult with
      | Except.error e => Except.error (Error.http e)
      | Except.ok text =>
        if resp.status ≠ 200 then Except.error (Error.unexpectedStatus resp.status text)
        else Except.ok ()

/-- AcmeDnsClient::health (lib.rs lines 138 to 149): join the health
path, send, require status 200; on any other status the body is read
best effort, an unreadable body degrading to the empty string. -/
def health (env : ClientEnv) : Except Error Unit :=
  match env.join "health" with
  | Except.error e => Except.error (Error.url e)
  | Except.ok url =>
    match env.send (healthRequest url) with
    | Except.error e => Except.error (Error.http e)
    | Except.ok resp =>
      if resp.status ≠ 200 then
        Except.error (Error.unexpectedStatus resp.status
          (match resp.textResult with
           | Except.ok t => t
           | Except.error _ => ""))
      else Except.ok ()

/-- Splitting a character sequence on the comma character, as the split
call of Credentials::from_env does: an empty input yields one empty
piece, and adjacent commas yield empty pieces. -/
def splitOnComma : List Char → List (List Char)
  | [] => [[]]
  | c :: rest =>
    if c = ',' then [] :: splitOnComma rest
    else
      match splitOnComma rest with
      | [] => [[c]]
      | g :: gs => (c :: g) :: gs

/-- Trimming surrounding whitespace characters from a piece, as the trim
call of Credentials::from_env does. -/
def trimChars (l : List Char) : List Char :=
  ((l.dropWhile Char.isWhitespace).reverse.dropWhile Char.isWhitespace).reverse

/-- The allow-list pipeline of Credentials::from_env (lib.rs lines 180 to
183): split on commas, trim each piece, drop the pieces that became
empty, keeping the order of the remaining pieces. -/
def allowFromOfString (s : String) : List String :=
  (((splitOnComma s.data).map trimChars).filter (fun cs => !cs.isEmpty)).map String.mk

/-- Credentials::from_env (lib.rs lines 165 to 194): the four required
variables read in order, the first absent one short-circuiting with
MissingEnv, then the optional allow-list variable. -/
def Credentials.from_env (env : Env) : Except Error Credentials :=
  match env "ACME_DNS_USERNAME" with
  | none => Except.error (Error.missingEnv "ACME_DNS_USERNAME")
  | some username =>
    match env "ACME_DNS_PASSWORD" with
    | none => Except.error (Error.missingEnv "ACME_DNS_PASSWORD")
    | some password =>
      match env "ACME_DNS_SUBDOMAIN" with
      | none => Except.error (Error.missingEnv "ACME_DNS_SUBDOMAIN")
      | some subdomain =>
        match env "ACME_DNS_FULLDOMAIN" with
        | none => Except.error (Error.missingEnv "ACME_DNS_FULLDOMAIN")
        | some fulldomain =>
          Except.ok { username := username, password := password,
                      subdomain := subdomain, fulldomain := fulldomain,
                      allowfrom :=
                        match env "ACME_DNS_ALLOWFROM" with
                        | some s => allowFromOfString s
                        | none => [] }

end AcmeDns

namespace AcmeDns

/-! Concrete gadgets used by witnesses and counterexamples. -/

/-- A joined register URL used by concrete scenarios. -/
def regUrl : Url := ⟨"https://auth.example.org/register"⟩

/-- A joined update URL used by concrete scenarios. -/
def updUrl : Url := ⟨"https://auth.example.org/update"⟩

/-- A joined health URL used by concrete scenarios. -/
def hlthUrl : Url := ⟨"https://auth.example.org/health"⟩

/-- Concrete credentials used by concrete scenarios. -/
def c2Creds : Credentials :=
  { username := "user-uuid", password := "pw", subdomain := "8e57",
    fulldomain := "8e57.auth.acme-dns.io", allowfrom := [] }

/-- A register response with the success status but a body that is not
JSON. -/
def c1Resp : Response := { status := 201, textResult := Except.ok "this is not json" }

/-- An environment whose server answers register with status 201 and a
non-JSON body. -/
def c1Env : ClientEnv :=
  { join := fun _ => Except.ok regUrl,
    send := fun _ => Except.ok c1Resp,
    parseJson := fun _ => none }

/-- A register response with status 400 and the body text bad request. -/
def c1wResp : Response := { status := 400, textResult := Except.ok "bad request" }

/-- An environment whose server answers register with status 400. -/
def c1wEnv : ClientEnv :=
  { join := fun _ => Except.ok regUrl,
    send := fun _ => Except.ok c1wResp,
    parseJson := fun _ => none }

/-- C1 (amended): whenever the register response body is read
successfully, any status other than 201 makes register return
UnexpectedStatus carrying exactly that status and the raw body text, and
register can succeed only when the status is 201. -/
theorem c1_register_strict_201
    (env : ClientEnv) (a : Option (List String)) (u : Url) (resp : Response) (text : String)
    (hj : env.join "register" = Except.ok u)
    (hs : env.send (registerRequest u a) = Except.ok resp)
    (ht : resp.textResult = Except.ok text) :
    (resp.status ≠ 201 → register env a = Except.error (Error.unexpectedStatus resp.status text))
    ∧ (∀ c, register env a = Except.ok c → resp.status = 201) := by
  constructor
  · intro hne
    simp only [register, hj, hs, ht]
    rw [if_pos hne]
  · intro c hc
    by_contra hne
    simp only [register, hj, hs, ht] at hc
    rw [if_pos hne] at hc
    exact Except.noConfusion hc

/-- C1 counterexample: a register response with status 201 whose body is
not JSON makes the call fail with JsonError, so the claimed equivalence
between success and status 201 does not hold. -/
theorem c1_status_201_without_success :
    c1Env.send (registerRequest regUrl none) = Except.ok c1Resp
    ∧ c1Resp.status = 201
    ∧ register c1Env none = Except.error (Error.json "expected value") :=
  ⟨rfl, rfl, rfl⟩

/-- C1 witness: a register response with status 400 and body text bad
request yields exactly UnexpectedStatus 400 with that text. -/
theorem c1_register_strict_201_witness :
    register c1wEnv none = Except.error (Error.unexpectedStatus 400 "bad request") :=
  (c1_register_strict_201 c1wEnv none regUrl c1wResp "bad request" rfl rfl rfl).1 (by decide)

/-- An update response with status 200 whose body read fails. -/
def c2cResp : Response := { status := 200, textResult := Except.error ⟨"connection reset"⟩ }

/-- An environment whose server answers update with status 200 but whose
body read fails. -/
def c2cEnv : ClientEnv :=
  { join := fun _ => Except.ok updUrl,
    send := fun _ => Except.ok c2cResp,
    parseJson := fun _ => none }

/-- An update response with status 200 and body text OK. -/
def c2wResp : Response := { status := 200, textResult := Except.ok "OK" }

/-- An environment whose server answers update with status 200 and a
readable body. -/
def c2wEnv : ClientEnv :=
  { join := fun _ => Except.ok updUrl,
    send := fun _ => Except.ok c2wResp,
    parseJson := fun _ => none }

/-- C2 (amended): update_txt sends a POST with headers X-Api-User and
X-Api-Key taken from the credentials and the JSON body with subdomain
and txt; whenever the response body is read successfully, the call
succeeds exactly when the status is 200, and any other status yields
UnexpectedStatus with that status and the raw body text. -/
theorem c2_update_request_shape_and_status
    (env : ClientEnv) (creds : Credentials) (txt : String) (u : Url) (resp : Response) (text : String)
    (hj : env.join "update" = Except.ok u)
    (hs : env.send (updateRequest u creds txt) = Except.ok resp)
    (ht : resp.textResult = Except.ok text) :
    (updateRequest u creds txt).method = "POST"
    ∧ (updateRequest u creds txt).headers =
        [("X-Api-User", creds.username), ("X-Api-Key", creds.password)]
    ∧ (updateRequest u creds txt).body =
        some (Json.obj [("subdomain", Json.str creds.subdomain), ("txt", Json.str txt)])
    ∧ (update_txt env creds txt = Except.ok () ↔ resp.status = 200)
    ∧ (resp.status ≠ 200 →
        update_txt env creds txt = Except.error (Error.unexpectedStatus resp.status text)) := by
  refine ⟨rfl, rfl, rfl, ?_, ?_⟩
  · constructor
    · intro hok
      by_contra hne
      simp only [update_txt, hj, hs, ht] at hok
      rw [if_pos hne] at hok
      exact Except.noConfusion hok
    · intro h200
      simp only [update_txt, hj, hs, ht]
      rw [if_neg (not_not_intro h200)]
  · intro hne
    simp only [update_txt, hj, hs, ht]
    rw [if_pos hne]

/-- C2 counterexample: an update response with status 200 whose body
read fails makes update_txt fail with a transport error, so success is
not equivalent to status 200 alone. -/
theorem c2_status_200_without_success :
    c2cEnv.send (updateRequest updUrl c2Creds "token123") = Except.ok c2cResp
    ∧ c2cResp.status = 200
    ∧ update_txt c2cEnv c2Creds "token123" = Except.error (Error.http ⟨"connection reset"⟩) :=
  ⟨rfl, rfl, rfl⟩

/-- C2 witness: with a readable body and status 200, update_txt
succeeds. -/
theorem c2_update_request_shape_and_status_witness :
    update_txt c2wEnv c2Creds "token123" = Except.ok () :=
  ((c2_update_request_shape_and_status c2wEnv c2Creds "token123" updUrl c2wResp "OK"
    rfl rfl rfl).2.2.2.1).mpr rfl

/-- An update response with status 200 whose body read fails with a read
timeout. -/
def c10Resp : Response := { status := 200, textResult := Except.error ⟨"read timeout"⟩ }

/-- An environment whose server answers update with status 200 but whose
body read times out. -/
def c10Env : ClientEnv :=
  { join := fun _ => Except.ok updUrl,
    send := fun _ => Except.ok c10Resp,
    parseJson := fun _ => none }

/-- C10: update_txt reads the response body before checking the status,
so a body-read failure is returned as a transport error even at status
200; success requires both status 200 and a readable body, and those two
conditions suffice. -/
theorem c10_update_body_read_precedes_status
    (env : ClientEnv) (creds : Credentials) (txt : String) (u : Url) (resp : Response)
    (hj : env.join "update" = Except.ok u)
    (hs : env.send (updateRequest u creds txt) = Except.ok resp) :
    (∀ e, resp.textResult = Except.error e →
        update_txt env creds txt = Except.error (Error.http e))
    ∧ (update_txt env creds txt = Except.ok () →
        resp.status = 200 ∧ ∃ t, resp.textResult = Except.ok t)
    ∧ (∀ t, resp.textResult = Except.ok t → resp.status = 200 →
        update_txt env creds txt = Except.ok ()) := by
  refine ⟨?_, ?_, ?_⟩
  · intro e he
    simp [update_txt, hj, hs, he]
  · intro hok
    simp only [update_txt, hj, hs] at hok
    cases ht : resp.textResult with
    | error e =>
      rw [ht] at hok
      simp at hok
    | ok t =>
      rw [ht] at hok
      by_cases h200 : resp.status = 200
      · exact ⟨h200, ⟨t, rfl⟩⟩
      · simp [h200] at hok
  · intro t ht h200
    simp only [update_txt, hj, hs, ht]
    rw [if_neg (not_not_intro h200)]

/-- C10 witness: status 200 with a failed body read yields the transport
error. -/
theorem c10_update_body_read_precedes_status_witness :
    update_txt c10Env c2Creds "tok" = Except.error (Error.http ⟨"read timeout"⟩) :=
  (c10_update_body_read_precedes_status c10Env c2Creds "tok" updUrl c10Resp rfl rfl).1
    ⟨"read timeout"⟩ rfl

end AcmeDns

namespace AcmeDns

/-- The key names of a JSON object, used to speak about field presence
in a serialized body. -/
def jsonFieldNames : Json → List String
  | Json.obj fields => fields.map Prod.fst
  | _ => []

/-- C4: the register request body contains the allowfrom field exactly
when the caller supplied a non-absent allow list: with none the body is
an object with no fields at all, and with a supplied list, empty or not,
the body carries allowfrom with that array. -/
theorem c4_register_allowfrom_presence :
    (∀ (u : Url) (a : Option (List String)),
        (registerRequest u a).body = some (registrationBodyJson a))
    ∧ registrationBodyJson none = Json.obj []
    ∧ (∀ xs : List String,
        registrationBodyJson (some xs) = Json.obj [("allowfrom", Json.arr (xs.map Json.str))])
    ∧ (∀ a : Option (List String),
        "allowfrom" ∈ jsonFieldNames (registrationBodyJson a) ↔ a.isSome) := by
  refine ⟨fun u a => rfl, rfl, fun xs => rfl, fun a => ?_⟩
  cases a <;> simp [registrationBodyJson, jsonFieldNames]

/-- C5: for every non-200 health response, health returns
UnexpectedStatus with that status and a best-effort body that degrades
to the empty string when the body read fails, whereas register and
update_txt propagate a body-read failure as a transport error. -/
theorem c5_health_best_effort_body :
    (∀ (env : ClientEnv) (u : Url) (resp : Response),
        env.join "health" = Except.ok u →
        env.send (healthRequest u) = Except.ok resp →
        resp.status ≠ 200 →
        health env = Except.error (Error.unexpectedStatus resp.status
          (match resp.textResult with
           | Except.ok t => t
           | Except.error _ => "")))
    ∧ (∀ (env : ClientEnv) (u : Url) (resp : Response) (e : HttpErr),
        env.join "health" = Except.ok u →
        env.send (healthRequest u) = Except.ok resp →
        resp.status ≠ 200 →
        resp.textResult = Except.error e →
        health env = Except.error (Error.unexpectedStatus resp.status ""))
    ∧ (∀ (env : ClientEnv) (a : Option (List String)) (u : Url) (resp : Response) (e : HttpErr),
        env.join "register" = Except.ok u →
        env.send (registerRequest u a) = Except.ok resp →
        resp.textResult = Except.error e →
        register env a = Except.error (Error.http e))
    ∧ (∀ (env : ClientEnv) (creds : Credentials) (txt : String) (u : Url) (resp : Response) (e : HttpErr),
        env.join "update" = Except.ok u →
        env.send (updateRequest u creds txt) = Except.ok resp →
        resp.textResult = Except.error e →
        update_txt env creds txt = Except.error (Error.http e)) := by
  refine ⟨?_, ?_, ?_, ?_⟩
  · intro env u resp hj hs hne
    simp only [health, hj, hs]
    rw [if_pos hne]
  · intro env u resp e hj hs hne he
    simp only [health, hj, hs, he]
    rw [if_pos hne]
  · intro env a u resp e hj hs he
    simp [register, hj, hs, he]
  · intro env creds txt u resp e hj hs he
    simp [update_txt, hj, hs, he]

/-- A health response with status 500 whose body read fails. -/
def c5Resp : Response :=
  { status := 500, textResult := Except.error ⟨"chunked body interrupted"⟩ }

/-- An environment whose server answers health with status 500 and an
unreadable body. -/
def c5Env : ClientEnv :=
  { join := fun _ => Except.ok hlthUrl,
    send := fun _ => Except.ok c5Resp,
    parseJson := fun _ => none }

/-- C5 witness: a 500 health response with a failed body read yields
UnexpectedStatus 500 with the empty body. -/
theorem c5_health_best_effort_body_witness :
    health c5Env = Except.error (Error.unexpectedStatus 500 "") :=
  c5_health_best_effort_body.2.1 c5Env hlthUrl c5Resp ⟨"chunked body interrupted"⟩
    rfl rfl (by decide) rfl

end AcmeDns

namespace AcmeDns

/-- decodeFields leaves a required slot at none when its key never
occurs in the remaining fields and the slot starts at none; stated for
the four required slots at once. -/
theorem decodeFields_absent (r : PartialCreds) (l : List (String × Json)) :
    ∀ acc : PartialCreds, decodeFields l acc = Except.ok r →
      (acc.username = none → (∀ p ∈ l, p.1 ≠ "username") → r.username = none)
      ∧ (acc.password = none → (∀ p ∈ l, p.1 ≠ "password") → r.password = none)
      ∧ (acc.subdomain = none → (∀ p ∈ l, p.1 ≠ "subdomain") → r.subdomain = none)
      ∧ (acc.fulldomain = none → (∀ p ∈ l, p.1 ≠ "fulldomain") → r.fulldomain = none) := by
  induction l with
  | nil =>
    intro acc h
    simp only [decodeFields] at h
    injection h with h2
    subst h2
    exact ⟨fun hz _ => hz, fun hz _ => hz, fun hz _ => hz, fun hz _ => hz⟩
  | cons p rest ih =>
    obtain ⟨k, v⟩ := p
    intro acc h
    simp only [decodeFields] at h
    split_ifs at h with h1 h2 h3 h4 h5 <;> repeat' split at h
    all_goals try exact Except.noConfusion h
    all_goals
      refine ⟨fun hz hmem => ?_, fun hz hmem => ?_, fun hz hmem => ?_, fun hz hmem => ?_⟩ <;>
        first
          | exact absurd h1 (hmem _ (List.mem_cons_self _ _))
          | exact absurd h2 (hmem _ (List.mem_cons_self _ _))
          | exact absurd h3 (hmem _ (List.mem_cons_self _ _))
          | exact absurd h4 (hmem _ (List.mem_cons_self _ _))
          | exact (ih _ h).1 hz fun q hq => hmem q (List.mem_cons_of_mem _ hq)
          | exact (ih _ h).2.1 hz fun q hq => hmem q (List.mem_cons_of_mem _ hq)
          | exact (ih _ h).2.2.1 hz fun q hq => hmem q (List.mem_cons_of_mem _ hq)
          | exact (ih _ h).2.2.2 hz fun q hq => hmem q (List.mem_cons_of_mem _ hq)

/-- A successful Credentials decode comes from a field pass that filled
all four required slots, and allowfrom is the filled slot or its
default. -/
theorem credentialsOfJson_ok_slots (l : List (String × Json)) (c : Credentials)
    (h : credentialsOfJson (Json.obj l) = Except.ok c) :
    ∃ r, decodeFields l ⟨none, none, none, none, none⟩ = Except.ok r
      ∧ r.username = some c.username ∧ r.password = some c.password
      ∧ r.subdomain = some c.subdomain ∧ r.fulldomain = some c.fulldomain
      ∧ c.allowfrom = r.allowfrom.getD [] := by
  simp only [credentialsOfJson] at h
  split at h
  · exact Except.noConfusion h
  rename_i r heq
  split at h
  · exact Except.noConfusion h
  rename_i u0 hu
  split at h
  · exact Except.noConfusion h
  rename_i p0 hp
  split at h
  · exact Except.noConfusion h
  rename_i s0 hs
  split at h
  · exact Except.noConfusion h
  rename_i f0 hf
  injection h with h2
  subst h2
  exact ⟨r, heq, hu, hp, hs, hf, rfl⟩

/-- A JSON object missing any of the four required keys never decodes
as Credentials. -/
theorem credentialsOfJson_requires_keys (l : List (String × Json)) (c : Credentials)
    (h : credentialsOfJson (Json.obj l) = Except.ok c) :
    "username" ∈ l.map Prod.fst ∧ "password" ∈ l.map Prod.fst
    ∧ "subdomain" ∈ l.map Prod.fst ∧ "fulldomain" ∈ l.map Prod.fst := by
  obtain ⟨r, hd, hu, hp, hsb, hf, _⟩ := credentialsOfJson_ok_slots l c h
  have habs := decodeFields_absent r l ⟨none, none, none, none, none⟩ hd
  refine ⟨?_, ?_, ?_, ?_⟩
  · by_contra hmem
    rw [habs.1 rfl (fun q hq hk => hmem (List.mem_map.mpr ⟨q, hq, hk⟩))] at hu
    exact Option.noConfusion hu
  · by_contra hmem
    rw [habs.2.1 rfl (fun q hq hk => hmem (List.mem_map.mpr ⟨q, hq, hk⟩))] at hp
    exact Option.noConfusion hp
  · by_contra hmem
    rw [habs.2.2.1 rfl (fun q hq hk => hmem (List.mem_map.mpr ⟨q, hq, hk⟩))] at hsb
    exact Option.noConfusion hsb
  · by_contra hmem
    rw [habs.2.2.2 rfl (fun q hq hk => hmem (List.mem_map.mpr ⟨q, hq, hk⟩))] at hf
    exact Option.noConfusion hf

/-- update_txt never returns a JSON error: its failure modes are URL,
transport, and unexpected status. -/
theorem update_txt_no_json (env : ClientEnv) (creds : Credentials) (txt : String) (e : String) :
    update_txt env creds txt ≠ Except.error (Error.json e) := by
  intro h
  simp only [update_txt] at h
  repeat' split at h
  all_goals simp at h

/-- health never returns a JSON error. -/
theorem health_no_json (env : ClientEnv) (e : String) :
    health env ≠ Except.error (Error.json e) := by
  intro h
  simp only [health] at h
  repeat' split at h
  all_goals simp at h

/-- Client construction never returns a JSON error. -/
theorem new_no_json (pr : Except UrlParseError Url) (br : Except HttpErr Unit) (e : String) :
    AcmeDnsClient.new pr br ≠ Except.error (Error.json e) := by
  intro h
  simp only [AcmeDnsClient.new] at h
  repeat' split at h
  all_goals simp at h

/-- Client construction from the environment never returns a JSON
error. -/
theorem client_from_env_no_json (env : Env) (pf : String → Except UrlParseError Url)
    (br : Except HttpErr Unit) (e : String) :
    AcmeDnsClient.from_env env pf br ≠ Except.error (Error.json e) := by
  intro h
  simp only [AcmeDnsClient.from_env, AcmeDnsClient.new] at h
  repeat' split at h
  all_goals simp at h

/-- Credentials loading from the environment never returns a JSON
error. -/
theorem credentials_from_env_no_json (env : Env) (e : String) :
    Credentials.from_env env ≠ Except.error (Error.json e) := by
  intro h
  simp only [Credentials.from_env] at h
  repeat' split at h
  all_goals simp at h

/-- C3: at status 201 with a readable body, register defers entirely to
the JSON parse of the body, returning JsonError when the parse fails and
the parsed Credentials when it succeeds; the decode requires the four
fields username, password, subdomain and fulldomain and defaults
allowfrom to the empty list when the key is absent; and no operation
other than register, in particular update_txt, health, or construction,
can produce JsonError. -/
theorem c3_register_json_parse :
    (∀ (env : ClientEnv) (a : Option (List String)) (u : Url) (resp : Response) (text : String),
        env.join "register" = Except.ok u →
        env.send (registerRequest u a) = Except.ok resp →
        resp.textResult = Except.ok text →
        resp.status = 201 →
        (∀ e, serdeFromStr env.parseJson text = Except.error e →
            register env a = Except.error (Error.json e))
        ∧ (∀ c, serdeFromStr env.parseJson text = Except.ok c →
            register env a = Except.ok c))
    ∧ (∀ u p s f : String,
        credentialsOfJson (Json.obj
          [("username", Json.str u), ("password", Json.str p),
           ("subdomain", Json.str s), ("fulldomain", Json.str f)]) =
          Except.ok { username := u, password := p, subdomain := s,
                      fulldomain := f, allowfrom := [] })
    ∧ (∀ (l : List (String × Json)) (c : Credentials),
        credentialsOfJson (Json.obj l) = Except.ok c →
        "username" ∈ l.map Prod.fst ∧ "password" ∈ l.map Prod.fst
        ∧ "subdomain" ∈ l.map Prod.fst ∧ "fulldomain" ∈ l.map Prod.fst)
    ∧ (∀ (env : ClientEnv) (creds : Credentials) (txt : String) (e : String),
        update_txt env creds txt ≠ Except.error (Error.json e))
    ∧ (∀ (env : ClientEnv) (e : String), health env ≠ Except.error (Error.json e))
    ∧ (∀ (pr : Except UrlParseError Url) (br : Except HttpErr Unit) (e : String),
        AcmeDnsClient.new pr br ≠ Except.error (Error.json e))
    ∧ (∀ (env : Env) (pf : String → Except UrlParseError Url) (br : Except HttpErr Unit)
        (e : String), AcmeDnsClient.from_env env pf br ≠ Except.error (Error.json e))
    ∧ (∀ (env : Env) (e : String),
        Credentials.from_env env ≠ Except.error (Error.json e)) := by
  refine ⟨?_, ?_, credentialsOfJson_requires_keys, update_txt_no_json, health_no_json,
    new_no_json, client_from_env_no_json, credentials_from_env_no_json⟩
  · intro env a u resp text hj hs ht h201
    constructor
    · intro e he
      simp only [register, hj, hs, ht]
      rw [if_neg (not_not_intro h201), he]
    · intro c hc
      simp only [register, hj, hs, ht]
      rw [if_neg (not_not_intro h201), hc]
  · intro u p s f
    rfl

/-- The Credentials JSON payload used by the C3 witness scenario. -/
def c3Json : Json :=
  Json.obj [("username", Json.str "user-uuid"), ("password", Json.str "pw"),
            ("subdomain", Json.str "8e57"), ("fulldomain", Json.str "8e57.auth.acme-dns.io")]

/-- A register response with status 201 and a readable body. -/
def c3Resp : Response := { status := 201, textResult := Except.ok "payload" }

/-- An environment whose server answers register with status 201 and
whose JSON parser yields the Credentials payload. -/
def c3Env : ClientEnv :=
  { join := fun _ => Except.ok regUrl,
    send := fun _ => Except.ok c3Resp,
    parseJson := fun _ => some c3Json }

/-- C3 witness: a 201 register response whose body parses as the
Credentials payload yields exactly those credentials, with allowfrom
defaulted to the empty list. -/
theorem c3_register_json_parse_witness :
    register c3Env none =
      Except.ok { username := "user-uuid", password := "pw", subdomain := "8e57",
                  fulldomain := "8e57.auth.acme-dns.io", allowfrom := [] } :=
  (c3_register_json_parse.1 c3Env none regUrl c3Resp "payload" rfl rfl rfl rfl).2 _ (by rfl)

end AcmeDns

namespace AcmeDns

/-- C6: Credentials.from_env fails with MissingEnv naming the first of
the four required variables, in the fixed order username, password,
subdomain, fulldomain, that is unset, whatever the later variables
hold. -/
theorem c6_from_env_first_missing :
    (∀ env : Env, env "ACME_DNS_USERNAME" = none →
        Credentials.from_env env = Except.error (Error.missingEnv "ACME_DNS_USERNAME"))
    ∧ (∀ (env : Env) (u : String), env "ACME_DNS_USERNAME" = some u →
        env "ACME_DNS_PASSWORD" = none →
        Credentials.from_env env = Except.error (Error.missingEnv "ACME_DNS_PASSWORD"))
    ∧ (∀ (env : Env) (u p : String), env "ACME_DNS_USERNAME" = some u →
        env "ACME_DNS_PASSWORD" = some p →
        env "ACME_DNS_SUBDOMAIN" = none →
        Credentials.from_env env = Except.error (Error.missingEnv "ACME_DNS_SUBDOMAIN"))
    ∧ (∀ (env : Env) (u p s : String), env "ACME_DNS_USERNAME" = some u →
        env "ACME_DNS_PASSWORD" = some p →
        env "ACME_DNS_SUBDOMAIN" = some s →
        env "ACME_DNS_FULLDOMAIN" = none →
        Credentials.from_env env = Except.error (Error.missingEnv "ACME_DNS_FULLDOMAIN")) := by
  refine ⟨?_, ?_, ?_, ?_⟩ <;> intros <;> simp [Credentials.from_env, *]

/-- An environment with only the username variable set; the later
required variables are unset. -/
def c6Env : Env := fun n =>
  if n = "ACME_DNS_USERNAME" then some "u" else none

/-- C6 witness: with the username set and the password unset,
from_env names the password variable. -/
theorem c6_from_env_first_missing_witness :
    Credentials.from_env c6Env = Except.error (Error.missingEnv "ACME_DNS_PASSWORD") :=
  c6_from_env_first_missing.2.1 c6Env "u" rfl rfl

/-- C7: with the four required variables set, the allow list is the
ALLOWFROM value split on commas, each piece trimmed of surrounding
whitespace, empty pieces discarded and order preserved; with the
variable absent the allow list is empty. -/
theorem c7_from_env_allowfrom :
    (∀ (env : Env) (u p sb f s : String),
        env "ACME_DNS_USERNAME" = some u →
        env "ACME_DNS_PASSWORD" = some p →
        env "ACME_DNS_SUBDOMAIN" = some sb →
        env "ACME_DNS_FULLDOMAIN" = some f →
        env "ACME_DNS_ALLOWFROM" = some s →
        Credentials.from_env env = Except.ok
          { username := u, password := p, subdomain := sb, fulldomain := f,
            allowfrom :=
              (((splitOnComma s.data).map trimChars).filter (fun cs => !cs.isEmpty)).map
                String.mk })
    ∧ (∀ (env : Env) (u p sb f : String),
        env "ACME_DNS_USERNAME" = some u →
        env "ACME_DNS_PASSWORD" = some p →
        env "ACME_DNS_SUBDOMAIN" = some sb →
        env "ACME_DNS_FULLDOMAIN" = some f →
        env "ACME_DNS_ALLOWFROM" = none →
        Credentials.from_env env = Except.ok
          { username := u, password := p, subdomain := sb, fulldomain := f,
            allowfrom := [] }) := by
  constructor <;> intros <;> simp [Credentials.from_env, allowFromOfString, *]

/-- An environment with the four required variables set and a
comma-separated allow list with surrounding whitespace. -/
def c7Env : Env := fun n =>
  if n = "ACME_DNS_USERNAME" then some "u"
  else if n = "ACME_DNS_PASSWORD" then some "p"
  else if n = "ACME_DNS_SUBDOMAIN" then some "s"
  else if n = "ACME_DNS_FULLDOMAIN" then some "s.auth.example.org"
  else if n = "ACME_DNS_ALLOWFROM" then some "1.2.3.4/32, 10.0.0.0/8"
  else none

/-- C7 witness: the allow list value with a space after the comma is
split, trimmed, and kept in order. -/
theorem c7_from_env_allowfrom_witness :
    Credentials.from_env c7Env = Except.ok
      { username := "u", password := "p", subdomain := "s",
        fulldomain := "s.auth.example.org",
        allowfrom := ["1.2.3.4/32", "10.0.0.0/8"] } := by
  have h := c7_from_env_allowfrom.1 c7Env "u" "p" "s" "s.auth.example.org"
    "1.2.3.4/32, 10.0.0.0/8" rfl rfl rfl rfl rfl
  rw [h]
  exact congrArg Except.ok
    (congrArg (Credentials.mk "u" "p" "s" "s.auth.example.org") (by decide))

/-- An environment whose four required variables are set to empty
strings. -/
def c8Env : Env := fun n =>
  if n = "ACME_DNS_USERNAME" then some ""
  else if n = "ACME_DNS_PASSWORD" then some ""
  else if n = "ACME_DNS_SUBDOMAIN" then some ""
  else if n = "ACME_DNS_FULLDOMAIN" then some ""
  else none

/-- C8 counterexample: an environment whose required variables are set
to empty strings still constructs credentials successfully, and every
field of the constructed value is the empty string, so successful
construction does not guarantee non-empty fields. -/
theorem c8_empty_fields_accepted :
    Credentials.from_env c8Env =
      Except.ok { username := "", password := "", subdomain := "",
                  fulldomain := "", allowfrom := [] } := rfl

/-- C8 (amended): credentials constructed by from_env or decoded from a
registration payload carry exactly the values supplied by the
environment or the payload, without any non-emptiness validation, so
any field other than allowfrom may be empty. -/
theorem c8_no_nonempty_validation :
    (∀ (env : Env) (u p sb f : String),
        env "ACME_DNS_USERNAME" = some u →
        env "ACME_DNS_PASSWORD" = some p →
        env "ACME_DNS_SUBDOMAIN" = some sb →
        env "ACME_DNS_FULLDOMAIN" = some f →
        ∃ c, Credentials.from_env env = Except.ok c
          ∧ c.username = u ∧ c.password = p ∧ c.subdomain = sb ∧ c.fulldomain = f)
    ∧ (∀ u p sb f : String,
        credentialsOfJson (Json.obj
          [("username", Json.str u), ("password", Json.str p),
           ("subdomain", Json.str sb), ("fulldomain", Json.str f)]) =
          Except.ok { username := u, password := p, subdomain := sb,
                      fulldomain := f, allowfrom := [] }) := by
  constructor
  · intro env u p sb f hu hp hsb hf
    refine ⟨{ username := u, password := p, subdomain := sb, fulldomain := f,
              allowfrom :=
                match env "ACME_DNS_ALLOWFROM" with
                | some s => allowFromOfString s
                | none => [] }, ?_, rfl, rfl, rfl, rfl⟩
    simp [Credentials.from_env, hu, hp, hsb, hf]
  · intro u p sb f
    rfl

/-- C8 witness: the amended statement applied to the all-empty
environment yields credentials whose fields are all empty. -/
theorem c8_no_nonempty_validation_witness :
    ∃ c, Credentials.from_env c8Env = Except.ok c
      ∧ c.username = "" ∧ c.password = "" ∧ c.subdomain = "" ∧ c.fulldomain = "" :=
  c8_no_nonempty_validation.1 c8Env "" "" "" "" rfl rfl rfl rfl

/-- C9 counterexample: with a base URL that parses, construction still
fails when the default transport builder fails, and the failure is a
transport error, not UrlError; so a parsing base URL does not guarantee
success and UrlError is not the only possible failure of new. -/
theorem c9_new_transport_build_failure :
    AcmeDnsClient.new (Except.ok ⟨"https://auth.example.org/"⟩)
      (Except.error ⟨"TLS backend initialization failed"⟩) =
      Except.error (Error.http ⟨"TLS backend initialization failed"⟩) := rfl

/-- C9 (amended): new fails with UrlError exactly on base URLs that do
not parse, before the transport is built; when the URL parses, new
succeeds exactly when the default transport builder succeeds, the
propagated builder error being its only other failure; and new never
produces Json, MissingEnv, or UnexpectedStatus errors. -/
theorem c9_new_url_and_build
    (pr : Except UrlParseError Url) (br : Except HttpErr Unit) :
    (∀ e, pr = Except.error e → AcmeDnsClient.new pr br = Except.error (Error.url e))
    ∧ (∀ u, pr = Except.ok u →
        (∀ e, br = Except.error e →
            AcmeDnsClient.new pr br = Except.error (Error.http e))
        ∧ (br = Except.ok () →
            AcmeDnsClient.new pr br = Except.ok { base_url := u, http := () }))
    ∧ (∀ e, AcmeDnsClient.new pr br ≠ Except.error (Error.json e))
    ∧ (∀ n, AcmeDnsClient.new pr br ≠ Except.error (Error.missingEnv n))
    ∧ (∀ st b, AcmeDnsClient.new pr br ≠ Except.error (Error.unexpectedStatus st b)) := by
  refine ⟨?_, ?_, fun e => new_no_json pr br e, ?_, ?_⟩
  · intro e he
    simp [AcmeDnsClient.new, he]
  · intro u hu
    constructor
    · intro e he
      simp [AcmeDnsClient.new, hu, he]
    · intro hb
      simp [AcmeDnsClient.new, hu, hb]
  · intro n h
    simp only [AcmeDnsClient.new] at h
    repeat' split at h
    all_goals simp at h
  · intro st b h
    simp only [AcmeDnsClient.new] at h
    repeat' split at h
    all_goals simp at h

/-- C9 witness: a base URL string that does not parse makes new fail
with exactly the UrlError. -/
theorem c9_new_url_and_build_witness :
    AcmeDnsClient.new (Except.error ⟨"relative URL without a base"⟩) (Except.ok ()) =
      Except.error (Error.url ⟨"relative URL without a base"⟩) :=
  (c9_new_url_and_build (Except.error ⟨"relative URL without a base"⟩) (Except.ok ())).1
    ⟨"relative URL without a base"⟩ rfl

end AcmeDns
